import Mathlib

/-!
Shallow embedding of `src/gtnh/assembler/generic_assembler.py` (class
`GenericAssembler`) from the DreamAssemblerXXL repository, together with
theorems settling the specification claims about it.

Modelling conventions:
* Python `Optional[T]` becomes `Option T`; a Python exception (KeyError,
  AssertionError, `raise Exception(...)`) becomes the `error` side of
  `Except PyErr`.
* Python dict iteration order over a release mod map is modelled as an
  association list (`List (String × String)`), in iteration order.
* The collaborators that live outside this module
  (`get_mod_and_version`, `config.get_version`,
  `get_asset_version_cache_location`, zip reading) are modelled as
  function fields of the corresponding structures, exactly as wide as the
  assembler uses them.
* The abstract methods of the base class (`add_mods`, `add_config`,
  `get_archive_path`) are stubs in the source (`pass`), overridden by
  subclasses that are not part of the analysed sources; they are modelled
  as method fields of the assembler record, constrained only where the
  spec constrains them.
* File-system effects of `assemble` are modelled by explicit state passing
  (`FS`) plus an event trace (`List Event`).
-/

set_option autoImplicit false

namespace GTNH

/-- Paths are modelled as plain strings. -/
abbrev Path := String

/-- Side enum from `gtnh.defs` (`Side.CLIENT`, `Side.SERVER`, `Side.BOTH`). -/
inductive Side where
  | CLIENT
  | SERVER
  | BOTH
  deriving DecidableEq, Repr

/-- ModSource enum from `gtnh.defs`; the assembler source only ever names
`ModSource.github` (the primary source); `ext` stands for the external
source. -/
inductive ModSource where
  | github
  | ext
  deriving DecidableEq, Repr

/-- Version object (`GTNHVersion`); only its identity matters here. -/
structure GTNHVersion where
  version_tag : String
  deriving DecidableEq, Repr

/-- Mod-info object for the primary source (`GTNHModInfo`); only its
identity matters to the assembler. -/
structure GTNHModInfo where
  name : String
  deriving DecidableEq, Repr

/-- Mod-info object for the external source (`ExternalModInfo`); only its
identity matters to the assembler. -/
structure ExtModInfo where
  name : String
  deriving DecidableEq, Repr

/-- The union type `GTNHModInfo | ExternalModInfo` used in the source. -/
abbrev ModInfoU := Sum GTNHModInfo ExtModInfo

/-- Config object (`GTNHConfig`): the assembler uses only its
`get_version` collaborator (`config.get_version(name) -> Version | None`). -/
structure GTNHConfig where
  get_version : String → Option GTNHVersion

/-- The slice of `mod_pack` the assembler reads: the per-side exclusion
lists. -/
structure ModPack where
  client_exclusions : List String
  server_exclusions : List String

/-- The slice of `modpack_manager.assets` the assembler reads:
`get_mod_and_version(name, version, valid_sides, source)` and `config`. -/
structure Assets where
  get_mod_and_version : String → String → Finset Side → ModSource →
    Option (ModInfoU × GTNHVersion)
  config : GTNHConfig

/-- The modpack manager collaborator (`GTNHModpackManager`), as used by
the assembler. -/
structure GTNHModpackManager where
  assets : Assets
  mod_pack : ModPack

/-- Release descriptor (`GTNHRelease`): the two mod maps in iteration
order, and the pinned config version name. `ext_mods` embeds the source
field `external_mods`. -/
structure GTNHRelease where
  github_mods : List (String × String)
  ext_mods : List (String × String)
  config : String

/-- Python exceptions the embedded code can raise. -/
inductive PyErr where
  | keyError
  | assertionError
  | exception (msg : String)
  deriving DecidableEq, Repr

/-- Compression mode of a `ZipFile` open. `ZipFile(p, "w")` without a
`compression` argument uses the library default `ZIP_STORED`
(uncompressed); `ZIP_DEFLATED` is the compressed mode. -/
inductive Compression where
  | stored
  | deflated
  deriving DecidableEq, Repr

/-- Observable events of `assemble`: file removal, log lines, and archive
open/close. Log text is abbreviated to structured constructors. -/
inductive Event where
  | removeFile (p : Path)
  | warnPreviousArchiveDeleted (p : Path)
  | logConstructingArchive (side : Side) (p : Path)
  | logAddingMods
  | logAddingConfig
  | logArchiveCreated
  | openArchive (p : Path) (mode : String) (compression : Compression)
  | closeArchive (p : Path)
  deriving DecidableEq, Repr

/-- File-system state visible to `assemble`: the set of existing paths,
as a list. -/
structure FS where
  files : List Path
  deriving DecidableEq, Repr

/-- State of a `GenericAssembler` instance after `__init__`, together
with its overridable methods. `modpack_manager` and `release` are the
constructor arguments stored on `self`; `delta_progress` is the mutable
progress scalar (initialised to `0.0`, modelled as `Rat`).

Modelled from the spec: `get_archive_path`, `add_mods` and `add_config`
are abstract stubs in this base class, overridden by subclasses that are
not among the analysed sources; they appear here as method fields.
`get_archive_path` is a pure function of the side (the spec calls it
deterministic given side and release); `add_mods` / `add_config` may fail
and emit events into the archive being built. -/
structure GenericAssembler where
  modpack_manager : GTNHModpackManager
  release : GTNHRelease
  delta_progress : Rat := 0
  get_archive_path : Side → Path
  add_mods : Side → List (ModInfoU × GTNHVersion) → Bool →
    Except PyErr Unit × List Event
  add_config : Side → GTNHConfig × GTNHVersion → Bool →
    Except PyErr Unit × List Event

/-- The `self.exclusions` dict built in `__init__`: it has exactly the two
keys `Side.CLIENT` and `Side.SERVER`; subscripting is modelled as an
`Option`-valued lookup (`none` = `KeyError`). -/
def exclusions (self : GenericAssembler) : Side → Option (List String)
  | Side.CLIENT => some self.modpack_manager.mod_pack.client_exclusions
  | Side.SERVER => some self.modpack_manager.mod_pack.server_exclusions
  | Side.BOTH => none

/-- Getter `get_progress`. -/
def get_progress (self : GenericAssembler) : Rat :=
  self.delta_progress

/-- Setter `set_progress`, by explicit state passing. -/
def set_progress (self : GenericAssembler) (delta_progress : Rat) :
    GenericAssembler :=
  { self with delta_progress := delta_progress }

/-- Embedding of `get_config`: looks up the release's pinned config
version name in the config collaborator; `assert version` becomes an
`AssertionError` on `none`. -/
def get_config (self : GenericAssembler) :
    Except PyErr (GTNHConfig × GTNHVersion) :=
  let config : GTNHConfig := self.modpack_manager.assets.config
  match config.get_version self.release.config with
  | some version => Except.ok (config, version)
  | none => Except.error PyErr.assertionError

/-- Embedding of `get_mods`: both mod maps are resolved with
`get_mod_and_version(name, version, valid_sides, ModSource.github)` —
the source passes `ModSource.github` for the `external_mods` entries as
well — and `filter(None, github_mods + external_mods)` drops the `None`
results. -/
def get_mods (self : GenericAssembler) (side : Side) :
    List (ModInfoU × GTNHVersion) :=
  let get_mod := self.modpack_manager.assets.get_mod_and_version
  let valid_sides : Finset Side := {side, Side.BOTH}
  let github_mods : List (Option (ModInfoU × GTNHVersion)) :=
    self.release.github_mods.map
      (fun nv => get_mod nv.1 nv.2 valid_sides ModSource.github)
  let ext_mods : List (Option (ModInfoU × GTNHVersion)) :=
    self.release.ext_mods.map
      (fun nv => get_mod nv.1 nv.2 valid_sides ModSource.github)
  (github_mods ++ ext_mods).reduceOption

/-- Collaborator environment for the file reads done by
`get_amount_of_files_in_config`: `get_asset_version_cache_location` maps
a (config, version) pair to the cached file path, and `zip_namelist` is
the entry list (`ZipFile.namelist()`) of the archive at a path; the
cached file is assumed present (download is an external concern). -/
structure Env where
  get_asset_version_cache_location : GTNHConfig → GTNHVersion → Path
  zip_namelist : Path → List String

/-- The list comprehension
`[item for item in config_zip.namelist() if item not in self.exclusions[side]]`:
the subscript `self.exclusions[side]` is evaluated once per item, inside
the loop, so an empty name list raises nothing. -/
def comprehension_items (self : GenericAssembler) (side : Side) :
    List String → Except PyErr (List String)
  | [] => Except.ok []
  | item :: rest =>
    match exclusions self side with
    | none => Except.error PyErr.keyError
    | some excl =>
      match comprehension_items self side rest with
      | Except.error e => Except.error e
      | Except.ok tail =>
        Except.ok (if item ∈ excl then tail else item :: tail)

/-- Embedding of `get_amount_of_files_in_config`: resolves the config,
locates the cached config archive, opens it read-only
(`ZipFile(..., "r", compression=ZIP_DEFLATED)`) and returns the length of
the filtered name list. It writes nothing: the embedding is a pure
function of the environment and the assembler state. -/
def get_amount_of_files_in_config (env : Env) (self : GenericAssembler)
    (side : Side) : Except PyErr Nat :=
  match get_config self with
  | Except.error e => Except.error e
  | Except.ok (modpack_config, config_version) =>
    let config_file : Path :=
      env.get_asset_version_cache_location modpack_config config_version
    match comprehension_items self side (env.zip_namelist config_file) with
    | Except.error e => Except.error e
    | Except.ok items => Except.ok items.length

/-- Body of the `with ZipFile(...) as archive:` block of `assemble`:
log, `add_mods(side, get_mods(side), archive)`, log,
`add_config(side, get_config(), archive)`, log. The result records
whether the body raised, and which events it emitted before doing so.
Note that `get_config()` is evaluated inside the block, after the
`Adding config` log line, and its `AssertionError` aborts the body. -/
def assemble_body (self : GenericAssembler) (side : Side) (verbose : Bool) :
    Except PyErr Unit × List Event :=
  match self.add_mods side (get_mods self side) verbose with
  | (Except.error e, ev1) => (Except.error e, Event.logAddingMods :: ev1)
  | (Except.ok _, ev1) =>
    match get_config self with
    | Except.error e =>
      (Except.error e,
        Event.logAddingMods :: ev1 ++ [Event.logAddingConfig])
    | Except.ok cfg =>
      match self.add_config side cfg verbose with
      | (Except.error e, ev3) =>
        (Except.error e,
          Event.logAddingMods :: ev1 ++ Event.logAddingConfig :: ev3)
      | (Except.ok _, ev3) =>
        (Except.ok (),
          Event.logAddingMods :: ev1 ++ Event.logAddingConfig :: ev3
            ++ [Event.logArchiveCreated])

/-- Embedding of `assemble`: reject any side other than CLIENT/SERVER
before touching the file system; delete (with a warning) any existing
file at `get_archive_path(side)`; then `with ZipFile(get_archive_path(side), "w")`
— library default compression, i.e. `ZIP_STORED` — run the body, and
close the archive on every exit path (`with`-statement semantics), the
body's exception, if any, propagating afterwards. Returns the result,
the final file-system state and the event trace. -/
def assemble (self : GenericAssembler) (fs : FS) (side : Side)
    (verbose : Bool) : Except PyErr Unit × FS × List Event :=
  if side ∉ ({Side.CLIENT, Side.SERVER} : Finset Side) then
    (Except.error
      (PyErr.exception "Can only assemble release for CLIENT or SERVER, not BOTH"),
      fs, [])
  else
    let archive_name : Path := self.get_archive_path side
    let fs1 : FS :=
      if archive_name ∈ fs.files then ⟨fs.files.erase archive_name⟩ else fs
    let ev1 : List Event :=
      if archive_name ∈ fs.files then
        [Event.removeFile archive_name,
         Event.warnPreviousArchiveDeleted archive_name]
      else []
    let fs2 : FS := ⟨self.get_archive_path side :: fs1.files⟩
    let (res, bodyEv) := assemble_body self side verbose
    (res, fs2,
      ev1 ++ Event.logConstructingArchive side archive_name
        :: Event.openArchive (self.get_archive_path side) "w" Compression.stored
        :: bodyEv ++ [Event.closeArchive (self.get_archive_path side)])

/-! Spec-side definitions, written from the spec's and the claims'
wording, to be compared with the embedded code. -/

/-- Definition following claim C1's wording: each entry of the primary
map is resolved with the primary (`github`) source and each entry of the
external map with the external source, both with
`valid_sides = {side, BOTH}`; successes are kept in order. -/
def resolveMods_claimC1 (self : GenericAssembler) (side : Side) :
    List (ModInfoU × GTNHVersion) :=
  let get_mod := self.modpack_manager.assets.get_mod_and_version
  let valid_sides : Finset Side := {side, Side.BOTH}
  ((self.release.github_mods.map
      (fun nv => get_mod nv.1 nv.2 valid_sides ModSource.github))
    ++ (self.release.ext_mods.map
      (fun nv => get_mod nv.1 nv.2 valid_sides ModSource.ext))).reduceOption

/-- Definition following the amended claim C1: every entry of both maps
is resolved with `get_mod_and_version(name, version, {side, BOTH},
ModSource.github)` — the primary source also for external-map entries —
and the successes are kept in order. -/
def resolveMods_amendedC1 (self : GenericAssembler) (side : Side) :
    List (ModInfoU × GTNHVersion) :=
  ((self.release.github_mods ++ self.release.ext_mods).map
    (fun nv => self.modpack_manager.assets.get_mod_and_version
      nv.1 nv.2 {side, Side.BOTH} ModSource.github)).reduceOption

/-- Definition following claim C2's wording: the result is the
successfully resolved primary-map entries, in iteration order, followed
by the successfully resolved external-map entries, in iteration order;
failed resolutions are dropped. -/
def resolveMods_specOrder (self : GenericAssembler) (side : Side) :
    List (ModInfoU × GTNHVersion) :=
  (self.release.github_mods.map
    (fun nv => self.modpack_manager.assets.get_mod_and_version
      nv.1 nv.2 {side, Side.BOTH} ModSource.github)).reduceOption
  ++ (self.release.ext_mods.map
    (fun nv => self.modpack_manager.assets.get_mod_and_version
      nv.1 nv.2 {side, Side.BOTH} ModSource.github)).reduceOption

/-- Modelled from the spec: the abstract method `add_config` (a stub in
this base class, implemented by subclasses that are not among the
analysed sources) opens the cached config archive and copies every entry
not listed in the side's exclusion list into the output archive. This
definition returns the list of entry names it copies for a given side. -/
def add_config_copied_spec (env : Env) (self : GenericAssembler)
    (side : Side) : Except PyErr (List String) :=
  match get_config self with
  | Except.error e => Except.error e
  | Except.ok (modpack_config, config_version) =>
    let names := env.zip_namelist
      (env.get_asset_version_cache_location modpack_config config_version)
    match exclusions self side with
    | none => Except.error PyErr.keyError
    | some excl => Except.ok (names.filter (fun item => decide (item ∉ excl)))

/-! Concrete instances, used by counterexamples and witnesses. -/

/-- Concrete version object used by the demo release. -/
def demo_version7 : GTNHVersion := ⟨"v7"⟩

/-- Concrete config collaborator: knows exactly the version named v7. -/
def demo_config : GTNHConfig :=
  ⟨fun name => if name = "v7" then some demo_version7 else none⟩

/-- Concrete exclusion lists (client excludes one config entry). -/
def demo_mod_pack : ModPack :=
  ⟨["configs/debug.cfg"], ["configs/client.cfg"]⟩

/-- Concrete resolver: resolves the mod named Forge from any source,
at the requested version. -/
def demo_resolver : String → String → Finset Side → ModSource →
    Option (ModInfoU × GTNHVersion) :=
  fun name version _ _ =>
    if name = "Forge" then some (Sum.inl ⟨"Forge"⟩, ⟨version⟩) else none

/-- Concrete modpack manager built from the demo collaborators. -/
def demo_manager : GTNHModpackManager :=
  ⟨⟨demo_resolver, demo_config⟩, demo_mod_pack⟩

/-- Concrete release: one primary-map entry, one external-map entry,
config pinned to v7. -/
def demo_release : GTNHRelease :=
  ⟨[("Forge", "1.0")], [("optifine", "2.0")], "v7"⟩

/-- Concrete assembler whose overridable methods succeed and emit no
events. -/
def demo_assembler : GenericAssembler where
  modpack_manager := demo_manager
  release := demo_release
  get_archive_path := fun side =>
    match side with
    | Side.CLIENT => "client.zip"
    | Side.SERVER => "server.zip"
    | Side.BOTH => "both.zip"
  add_mods := fun _ _ _ => (Except.ok (), [])
  add_config := fun _ _ _ => (Except.ok (), [])

/-- Concrete environment: the demo config archive holds two entries, one
of which is in the client exclusion list. -/
def demo_env : Env where
  get_asset_version_cache_location := fun _ v =>
    "cache/config-" ++ v.version_tag ++ ".zip"
  zip_namelist := fun p =>
    if p = "cache/config-v7.zip" then
      ["configs/debug.cfg", "configs/main.cfg"]
    else []

/-- Concrete resolver that answers only when asked with the external
source: it discriminates the source argument. -/
def srcdep_resolver : String → String → Finset Side → ModSource →
    Option (ModInfoU × GTNHVersion) :=
  fun name _ _ src =>
    if name = "hodgepodge" ∧ src = ModSource.ext then
      some (Sum.inr ⟨"hodgepodge"⟩, ⟨"1.0"⟩)
    else none

/-- Concrete assembler whose release has one external-map entry that
resolves only under the external source. -/
def srcdep_assembler : GenericAssembler where
  modpack_manager := ⟨⟨srcdep_resolver, demo_config⟩, demo_mod_pack⟩
  release := ⟨[], [("hodgepodge", "1.0")], "v7"⟩
  get_archive_path := fun _ => "out.zip"
  add_mods := fun _ _ _ => (Except.ok (), [])
  add_config := fun _ _ _ => (Except.ok (), [])

/-- Concrete assembler whose `add_mods` override raises (disk-full style
failure while writing mods). -/
def failing_assembler : GenericAssembler where
  modpack_manager := demo_manager
  release := demo_release
  get_archive_path := fun _ => "broken.zip"
  add_mods := fun _ _ _ => (Except.error (PyErr.exception "disk full"), [])
  add_config := fun _ _ _ => (Except.ok (), [])

/-- Concrete environment whose cached config archive is empty. -/
def empty_zip_env : Env where
  get_asset_version_cache_location := fun _ _ => "cache/empty.zip"
  zip_namelist := fun _ => []

/-! Helper lemmas shared by several claim proofs. -/

/-- When the side has an exclusion list, the comprehension never raises
and filters the name list by non-membership in that list. -/
theorem comprehension_items_eq_filter (self : GenericAssembler)
    (side : Side) (excl : List String)
    (h : exclusions self side = some excl) (names : List String) :
    comprehension_items self side names =
      Except.ok (names.filter (fun item => decide (item ∉ excl))) := by
  induction names with
  | nil => simp [comprehension_items]
  | cons item rest ih =>
    simp only [comprehension_items, h, ih]
    by_cases hm : item ∈ excl <;> simp [hm, List.filter_cons]

/-- Membership in the valid-side set means being CLIENT or SERVER. -/
theorem side_eq_of_mem_valid (side : Side)
    (h : side ∈ ({Side.CLIENT, Side.SERVER} : Finset Side)) :
    side = Side.CLIENT ∨ side = Side.SERVER := by
  rcases Finset.mem_insert.mp h with h1 | h1
  · exact Or.inl h1
  · exact Or.inr (Finset.mem_singleton.mp h1)

/-! Claim theorems. -/

/-- C1, counterexample: `get_mods` does not resolve external-map entries
with the external source. With a resolver that answers only under the
external source and a release whose external map holds one entry,
`get_mods` returns the empty list while the claimed behaviour
(`resolveMods_claimC1`) returns that entry. -/
theorem get_mods_source_claim_refuted :
    get_mods srcdep_assembler Side.CLIENT ≠
      resolveMods_claimC1 srcdep_assembler Side.CLIENT := by
  decide

/-- C1, amended: `get_mods` resolves every entry of both the primary and
the external mod map by calling `get_mod_and_version(name, version,
{side, BOTH}, ModSource.github)` — the primary source is passed for
external-map entries as well — keeping the successes in order. -/
theorem get_mods_uses_primary_source_for_both_maps
    (self : GenericAssembler) (side : Side) :
    get_mods self side = resolveMods_amendedC1 self side := by
  simp [get_mods, resolveMods_amendedC1, List.map_append]

/-- C2: `get_mods` returns exactly the successfully resolved entries
(failed resolutions are dropped, never an error), ordered as the
primary-map successes in iteration order followed by the external-map
successes in iteration order; and the result depends only on the
release's mod maps and the resolver, so repeated calls with the same
iteration order return the identical list. -/
theorem get_mods_order_and_filtering (self : GenericAssembler)
    (side : Side) :
    get_mods self side = resolveMods_specOrder self side ∧
    ∀ other : GenericAssembler,
      other.release.github_mods = self.release.github_mods →
      other.release.ext_mods = self.release.ext_mods →
      other.modpack_manager.assets.get_mod_and_version =
        self.modpack_manager.assets.get_mod_and_version →
      get_mods other side = get_mods self side := by
  constructor
  · simp [get_mods, resolveMods_specOrder, List.reduceOption_append]
  · intro other h1 h2 h3
    simp [get_mods, h1, h2, h3]

/-- C2, witness at the demo assembler. -/
theorem get_mods_order_and_filtering_witness :
    get_mods demo_assembler Side.CLIENT =
      resolveMods_specOrder demo_assembler Side.CLIENT ∧
    get_mods demo_assembler Side.CLIENT =
      get_mods demo_assembler Side.CLIENT :=
  ⟨(get_mods_order_and_filtering demo_assembler Side.CLIENT).1,
   (get_mods_order_and_filtering demo_assembler Side.CLIENT).2
     demo_assembler rfl rfl rfl⟩

/-- C3: `get_config` returns the config collaborator paired with the
version named by the release's config field when that version exists,
and fails with an `AssertionError` — `assert version` — when
`config.get_version` returns absence. -/
theorem get_config_resolves_or_asserts (self : GenericAssembler) :
    (∀ v, self.modpack_manager.assets.config.get_version
        self.release.config = some v →
      get_config self = Except.ok (self.modpack_manager.assets.config, v)) ∧
    (self.modpack_manager.assets.config.get_version
        self.release.config = none →
      get_config self = Except.error PyErr.assertionError) := by
  constructor
  · intro v hv
    simp [get_config, hv]
  · intro h
    simp [get_config, h]

/-- C3, witness: the demo release's config version v7 resolves. -/
theorem get_config_resolves_or_asserts_witness :
    get_config demo_assembler = Except.ok (demo_config, demo_version7) :=
  (get_config_resolves_or_asserts demo_assembler).1 demo_version7 rfl

/-- C4: for a side with an exclusion list (CLIENT or SERVER),
`get_amount_of_files_in_config` returns exactly the number of entries of
the cached config archive — located via `get_config`'s version — whose
path is not a member of that side's exclusion list. The embedding is a
pure function of the environment and the assembler, matching the
read-only source (`ZipFile(..., "r")`, no assignment to `self`). -/
theorem get_amount_counts_nonexcluded (env : Env)
    (self : GenericAssembler) (side : Side)
    (hside : side ∈ ({Side.CLIENT, Side.SERVER} : Finset Side))
    (c : GTNHConfig) (v : GTNHVersion)
    (hcfg : get_config self = Except.ok (c, v)) :
    ∃ excl, exclusions self side = some excl ∧
      get_amount_of_files_in_config env self side =
        Except.ok (((env.zip_namelist
          (env.get_asset_version_cache_location c v)).filter
            (fun item => decide (item ∉ excl))).length) := by
  rcases Finset.mem_insert.mp hside with h | h
  · subst h
    exact ⟨self.modpack_manager.mod_pack.client_exclusions, rfl, by
      simp [get_amount_of_files_in_config, hcfg,
        comprehension_items_eq_filter self Side.CLIENT _ rfl]⟩
  · rw [Finset.mem_singleton] at h
    subst h
    exact ⟨self.modpack_manager.mod_pack.server_exclusions, rfl, by
      simp [get_amount_of_files_in_config, hcfg,
        comprehension_items_eq_filter self Side.SERVER _ rfl]⟩

/-- C4, witness: for the demo client, one of the two config entries is
excluded, so the count is 1. -/
theorem get_amount_counts_nonexcluded_witness :
    ∃ excl, exclusions demo_assembler Side.CLIENT = some excl ∧
      get_amount_of_files_in_config demo_env demo_assembler Side.CLIENT =
        Except.ok (((demo_env.zip_namelist
          (demo_env.get_asset_version_cache_location demo_config
            demo_version7)).filter
              (fun item => decide (item ∉ excl))).length) :=
  get_amount_counts_nonexcluded demo_env demo_assembler Side.CLIENT
    (by decide) demo_config demo_version7 rfl

/-- C9: for CLIENT and SERVER, `get_amount_of_files_in_config` returns
exactly the length of the entry list that the spec-modelled `add_config`
copies for that side — the progress total and the actual writes agree. -/
theorem get_amount_matches_add_config_spec (env : Env)
    (self : GenericAssembler) (side : Side)
    (hside : side ∈ ({Side.CLIENT, Side.SERVER} : Finset Side)) :
    get_amount_of_files_in_config env self side =
      Except.map List.length (add_config_copied_spec env self side) := by
  have hex : ∃ excl, exclusions self side = some excl := by
    rcases Finset.mem_insert.mp hside with h | h
    · subst h
      exact ⟨_, rfl⟩
    · rw [Finset.mem_singleton] at h
      subst h
      exact ⟨_, rfl⟩
  rcases hex with ⟨excl, hexcl⟩
  cases hc : get_config self with
  | error e =>
    simp [get_amount_of_files_in_config, add_config_copied_spec, hc,
      Except.map]
  | ok cfg =>
    rcases cfg with ⟨c, v⟩
    simp [get_amount_of_files_in_config, add_config_copied_spec, hc,
      hexcl, Except.map, comprehension_items_eq_filter self side excl hexcl]

/-- C9, witness at the demo server side. -/
theorem get_amount_matches_add_config_spec_witness :
    get_amount_of_files_in_config demo_env demo_assembler Side.SERVER =
      Except.map List.length
        (add_config_copied_spec demo_env demo_assembler Side.SERVER) :=
  get_amount_matches_add_config_spec demo_env demo_assembler Side.SERVER
    (by decide)

/-- C10, counterexample: with side BOTH and an empty cached config
archive, `get_amount_of_files_in_config` raises nothing: the list
comprehension evaluates `self.exclusions[side]` once per item, so with no
items the missing BOTH key is never looked up, and the call returns 0
rather than a KeyError. -/
theorem get_amount_both_empty_archive_refutes_claim :
    get_amount_of_files_in_config empty_zip_env demo_assembler Side.BOTH =
        Except.ok 0 ∧
      get_amount_of_files_in_config empty_zip_env demo_assembler Side.BOTH ≠
        Except.error PyErr.keyError := by
  constructor
  · rfl
  · intro h
    simp [get_amount_of_files_in_config, get_config, demo_assembler,
      demo_manager, demo_config, demo_release, empty_zip_env,
      comprehension_items] at h

/-- C10, amended: with side BOTH (whose key is absent from the
exclusions dict built at initialisation) and a resolvable config,
`get_amount_of_files_in_config` raises a KeyError exactly when the
cached config archive has at least one entry; with an empty archive the
per-item exclusions lookup is never evaluated and the call returns 0. -/
theorem get_amount_both_raises_keyError_iff_nonempty (env : Env)
    (self : GenericAssembler) (c : GTNHConfig) (v : GTNHVersion)
    (hcfg : get_config self = Except.ok (c, v)) :
    (∀ item rest,
      env.zip_namelist (env.get_asset_version_cache_location c v) =
          item :: rest →
        get_amount_of_files_in_config env self Side.BOTH =
          Except.error PyErr.keyError) ∧
    (env.zip_namelist (env.get_asset_version_cache_location c v) = [] →
      get_amount_of_files_in_config env self Side.BOTH = Except.ok 0) := by
  constructor
  · intro item rest hn
    simp [get_amount_of_files_in_config, hcfg, hn, comprehension_items,
      exclusions]
  · intro hn
    simp [get_amount_of_files_in_config, hcfg, hn, comprehension_items]

/-- C10 amended, witness: the demo config archive is non-empty, so the
BOTH lookup raises a KeyError. -/
theorem get_amount_both_raises_keyError_iff_nonempty_witness :
    get_amount_of_files_in_config demo_env demo_assembler Side.BOTH =
      Except.error PyErr.keyError :=
  (get_amount_both_raises_keyError_iff_nonempty demo_env demo_assembler
      demo_config demo_version7 rfl).1
    "configs/debug.cfg" ["configs/main.cfg"] rfl

/-- C5: for any side outside {CLIENT, SERVER}, `assemble` raises its
invalid-argument exception before any file-system mutation: the
file-system state is returned unchanged and the event trace is empty (no
deletion, no archive creation). -/
theorem assemble_rejects_invalid_side_without_mutation
    (self : GenericAssembler) (fs : FS) (side : Side) (verbose : Bool)
    (h : side ∉ ({Side.CLIENT, Side.SERVER} : Finset Side)) :
    assemble self fs side verbose =
      (Except.error (PyErr.exception
        "Can only assemble release for CLIENT or SERVER, not BOTH"),
       fs, []) := by
  simp [assemble, h]

/-- C5, witness at `Side.BOTH`. -/
theorem assemble_rejects_invalid_side_without_mutation_witness :
    assemble demo_assembler ⟨["client.zip"]⟩ Side.BOTH false =
      (Except.error (PyErr.exception
        "Can only assemble release for CLIENT or SERVER, not BOTH"),
       (⟨["client.zip"]⟩ : FS), []) :=
  assemble_rejects_invalid_side_without_mutation demo_assembler
    ⟨["client.zip"]⟩ Side.BOTH false (by decide)

/-- C6: for a valid side, `assemble` deletes an existing file at
`get_archive_path(side)` — logging a warning, not an error — before
opening the new archive, and deletes nothing when no file exists there:
the trace starts with the remove/warn pair exactly when the path exists,
followed by the construction log line and then the archive open. -/
theorem assemble_deletes_existing_archive_before_open
    (self : GenericAssembler) (fs : FS) (side : Side) (verbose : Bool)
    (h : side ∈ ({Side.CLIENT, Side.SERVER} : Finset Side)) :
    ∃ rest, (assemble self fs side verbose).2.2 =
      (if self.get_archive_path side ∈ fs.files then
        [Event.removeFile (self.get_archive_path side),
         Event.warnPreviousArchiveDeleted (self.get_archive_path side)]
       else [])
      ++ Event.logConstructingArchive side (self.get_archive_path side)
        :: Event.openArchive (self.get_archive_path side) "w"
            Compression.stored
        :: rest := by
  refine ⟨(assemble_body self side verbose).2
    ++ [Event.closeArchive (self.get_archive_path side)], ?_⟩
  rcases side_eq_of_mem_valid side h with rfl | rfl <;> simp [assemble]

/-- C6, witness: a pre-existing client archive is removed first. -/
theorem assemble_deletes_existing_archive_before_open_witness :
    ∃ rest,
      (assemble demo_assembler ⟨["client.zip"]⟩ Side.CLIENT false).2.2 =
      (if demo_assembler.get_archive_path Side.CLIENT ∈
          (⟨["client.zip"]⟩ : FS).files then
        [Event.removeFile (demo_assembler.get_archive_path Side.CLIENT),
         Event.warnPreviousArchiveDeleted
           (demo_assembler.get_archive_path Side.CLIENT)]
       else [])
      ++ Event.logConstructingArchive Side.CLIENT
          (demo_assembler.get_archive_path Side.CLIENT)
        :: Event.openArchive
            (demo_assembler.get_archive_path Side.CLIENT) "w"
            Compression.stored
        :: rest :=
  assemble_deletes_existing_archive_before_open demo_assembler
    ⟨["client.zip"]⟩ Side.CLIENT false (by decide)

/-- C7, counterexample: at a concrete assembler and file system, the
archive open recorded by `assemble` uses the stored (uncompressed)
method — `ZipFile(path, "w")` passes no compression argument — and no
deflated (compressed) open occurs in the trace. -/
theorem assemble_compression_claim_refuted :
    Event.openArchive "client.zip" "w" Compression.deflated ∉
        (assemble demo_assembler ⟨[]⟩ Side.CLIENT false).2.2 ∧
      Event.openArchive "client.zip" "w" Compression.stored ∈
        (assemble demo_assembler ⟨[]⟩ Side.CLIENT false).2.2 := by
  decide

/-- C7, amended: for a valid side, `assemble` opens the output archive
for writing with the library default stored (uncompressed) method: the
trace contains exactly one open event up to that point, with
`Compression.stored`, and no event before it is an archive open. -/
theorem assemble_opens_archive_stored (self : GenericAssembler) (fs : FS)
    (side : Side) (verbose : Bool)
    (h : side ∈ ({Side.CLIENT, Side.SERVER} : Finset Side)) :
    ∃ pre rest, (assemble self fs side verbose).2.2 =
      pre ++ Event.openArchive (self.get_archive_path side) "w"
          Compression.stored :: rest ∧
      ∀ e ∈ pre, ∀ q m c, e ≠ Event.openArchive q m c := by
  by_cases hex : self.get_archive_path side ∈ fs.files
  · refine ⟨[Event.removeFile (self.get_archive_path side),
       Event.warnPreviousArchiveDeleted (self.get_archive_path side),
       Event.logConstructingArchive side (self.get_archive_path side)],
      (assemble_body self side verbose).2
        ++ [Event.closeArchive (self.get_archive_path side)], ?_, ?_⟩
    · rcases side_eq_of_mem_valid side h with rfl | rfl <;>
        simp [assemble, hex]
    · intro e he q m c
      simp only [List.mem_cons, List.mem_singleton] at he
      rcases he with rfl | rfl | rfl | he
      · simp
      · simp
      · simp
      · simp at he
  · refine ⟨[Event.logConstructingArchive side
        (self.get_archive_path side)],
      (assemble_body self side verbose).2
        ++ [Event.closeArchive (self.get_archive_path side)], ?_, ?_⟩
    · rcases side_eq_of_mem_valid side h with rfl | rfl <;>
        simp [assemble, hex]
    · intro e he q m c
      simp only [List.mem_singleton] at he
      subst he
      simp

/-- C7 amended, witness. -/
theorem assemble_opens_archive_stored_witness :
    ∃ pre rest, (assemble demo_assembler ⟨[]⟩ Side.SERVER false).2.2 =
      pre ++ Event.openArchive
          (demo_assembler.get_archive_path Side.SERVER) "w"
          Compression.stored :: rest ∧
      ∀ e ∈ pre, ∀ q m c, e ≠ Event.openArchive q m c :=
  assemble_opens_archive_stored demo_assembler ⟨[]⟩ Side.SERVER false
    (by decide)

/-- C8: for a valid side, on every exit of `assemble` after the archive
open — a successful body as well as a body that raised during the mod or
config writing — the close event for the archive is the last event of
the trace: the handle is released before control returns. -/
theorem assemble_closes_archive_on_all_paths (self : GenericAssembler)
    (fs : FS) (side : Side) (verbose : Bool)
    (h : side ∈ ({Side.CLIENT, Side.SERVER} : Finset Side)) :
    ∃ pre bodyEv, (assemble self fs side verbose).2.2 =
      pre ++ Event.openArchive (self.get_archive_path side) "w"
          Compression.stored
        :: (bodyEv ++ [Event.closeArchive (self.get_archive_path side)]) := by
  refine ⟨(if self.get_archive_path side ∈ fs.files then
      [Event.removeFile (self.get_archive_path side),
       Event.warnPreviousArchiveDeleted (self.get_archive_path side)]
     else [])
    ++ [Event.logConstructingArchive side (self.get_archive_path side)],
    (assemble_body self side verbose).2, ?_⟩
  rcases side_eq_of_mem_valid side h with rfl | rfl <;> simp [assemble]

/-- C8, witness: with an assembler whose `add_mods` raises, the close
event still terminates the trace. -/
theorem assemble_closes_archive_on_all_paths_witness :
    ∃ pre bodyEv,
      (assemble failing_assembler ⟨[]⟩ Side.SERVER false).2.2 =
      pre ++ Event.openArchive
          (failing_assembler.get_archive_path Side.SERVER) "w"
          Compression.stored
        :: (bodyEv ++ [Event.closeArchive
            (failing_assembler.get_archive_path Side.SERVER)]) :=
  assemble_closes_archive_on_all_paths failing_assembler ⟨[]⟩ Side.SERVER
    false (by decide)

end GTNH
